import Mathlib

/-
Verification of the Gradescope client core of canvas-mcp
(cookie jar, TTL cache, login handshake, authenticated requests,
HTML-parse based data operations, query analyzer).

The stateful TypeScript code is embedded shallowly: HTTP traffic is a
trace of fetch outcomes consumed in order, the HTML documents are
modelled by the data the cheerio selectors extract from them, and the
mutable `this` fields of the classes become an explicit state record
threaded through every operation.
-/

namespace CanvasMCP

/-- Does the first character list start with the second one? -/
def seqStartsWith : List Char → List Char → Bool
  | _, [] => true
  | [], _ :: _ => false
  | a :: as, b :: bs => a = b && seqStartsWith as bs

/-- Does the first character list contain the second as a contiguous
subsequence? -/
def seqContains : List Char → List Char → Bool
  | [], sub => sub.isEmpty
  | a :: as, sub => seqStartsWith (a :: as) sub || seqContains as sub

/-- JavaScript `haystack.includes(needle)` (substring containment). -/
def jsIncludes (hay sub : String) : Bool :=
  seqContains hay.data sub.data

/-- Fuel-driven splitter on a non-empty separator sequence; the fuel is
at least the list length plus one, so it never runs out. -/
def splitGo (sep : List Char) : Nat → List Char → List (List Char)
  | _, [] => [[]]
  | 0, l => [l]
  | fuel + 1, c :: cs =>
    if seqStartsWith (c :: cs) sep then
      [] :: splitGo sep fuel ((c :: cs).drop sep.length)
    else
      match splitGo sep fuel cs with
      | [] => [[c]]
      | h :: t => (c :: h) :: t

/-- JavaScript `s.split(sep)` for a non-empty separator (every separator
used by the code is non-empty); an empty separator returns the string
whole. -/
def jsSplit (s sep : String) : List String :=
  if sep.data.isEmpty then [s]
  else (splitGo sep.data (s.data.length + 1) s.data).map (fun l => ⟨l⟩)

/-- JavaScript `s.trim()`: strip whitespace from both ends. -/
def jsTrim (s : String) : String :=
  ⟨((s.data.dropWhile Char.isWhitespace).reverse.dropWhile Char.isWhitespace).reverse⟩

/-- JavaScript `s.toLowerCase()` (ASCII case folding). -/
def jsToLower (s : String) : String :=
  ⟨s.data.map Char.toLower⟩

/-- JavaScript `array.join(sep)`. -/
def jsJoin (sep : String) : List String → String
  | [] => ""
  | [s] => s
  | s :: rest => s ++ sep ++ jsJoin sep rest

/-- JavaScript truthiness test for a nullable string: `null`, `undefined`
and `""` are falsy; a truthy value is kept. -/
def truthy (o : Option String) : Option String :=
  match o with
  | none => none
  | some s => if s = "" then none else some s

/-- A JavaScript number as produced by `parseFloat`: either NaN or a
rational value (Gradescope points are decimal literals). -/
inductive JsNum where
  | nan : JsNum
  | num : ℚ → JsNum
deriving DecidableEq, Repr

/-- Value of a list of decimal digit characters. -/
def digitsVal (ds : List Char) : Nat :=
  ds.foldl (fun a c => a * 10 + (c.toNat - 48)) 0

/-- Model of the JavaScript `parseFloat` builtin on plain decimal
literals: skip leading whitespace, optional sign, integer digits and an
optional fractional part; no leading digits at all gives NaN. -/
def parseFloatJs (s : String) : JsNum :=
  let cs := s.data.dropWhile Char.isWhitespace
  let signVal : ℚ := match cs with
    | '-' :: _ => -1
    | _ => 1
  let cs2 := match cs with
    | '-' :: rest => rest
    | '+' :: rest => rest
    | _ => cs
  let intDigits := cs2.takeWhile Char.isDigit
  let rest := cs2.dropWhile Char.isDigit
  let fracDigits := match rest with
    | '.' :: r => r.takeWhile Char.isDigit
    | _ => []
  if intDigits.isEmpty && fracDigits.isEmpty then JsNum.nan
  else
    JsNum.num (signVal *
      ((digitsVal intDigits : ℚ) + (digitsVal fracDigits : ℚ) / ((10 : ℚ) ^ fracDigits.length)))

/-- Insertion-ordered map update with JavaScript `Map.set` / object
property-assignment semantics: an existing key keeps its position and
gets the new value, a fresh key is appended at the end. -/
def upsert {κ α : Type} [DecidableEq κ] : List (κ × α) → κ → α → List (κ × α)
  | [], k, v => [(k, v)]
  | (k2, v2) :: rest, k, v =>
    if k2 = k then (k, v) :: rest else (k2, v2) :: upsert rest k v

/-- Lookup in an insertion-ordered map. -/
def mapLookup {κ α : Type} [DecidableEq κ] : List (κ × α) → κ → Option α
  | [], _ => none
  | (k2, v) :: rest, k => if k2 = k then some v else mapLookup rest k

/- ----------------------------------------------------------------
CookieManager (gradescope.ts): a cookie jar keyed by cookie name.
---------------------------------------------------------------- -/

/-- One `Set-Cookie` header value parsed the way
`CookieManager.setCookiesFromHeaders` does: take the part before the
first `;`, split it on `=`; need at least a name and a value; the value
is everything after the first `=` rejoined. -/
def parseSetCookie (cookie : String) : Option (String × String) :=
  let firstPart := (jsSplit cookie ";").headD ""
  let parts := jsSplit firstPart "="
  if parts.length ≥ 2 then
    some (jsTrim (parts.headD ""), jsTrim (jsJoin "=" parts.tail))
  else
    none

/-- `CookieManager.setCookiesFromHeaders`: ingest every `Set-Cookie`
entry of a response into the jar. -/
def setCookiesFromHeaders (jar : List (String × String)) (headers : List String) :
    List (String × String) :=
  headers.foldl
    (fun j c =>
      match parseSetCookie c with
      | some (n, v) => upsert j n v
      | none => j)
    jar

/-- `CookieManager.getCookieString`: serialize the jar as
`name=value; name2=value2` in insertion order. -/
def getCookieString (jar : List (String × String)) : String :=
  jsJoin "; " (jar.map (fun p => p.1 ++ "=" ++ p.2))

/- ----------------------------------------------------------------
TTL cache.
---------------------------------------------------------------- -/

/-- Modelled from the spec: the repository imports `WorkerCache` from
`./cache.js`, whose source file is not under src/. `CacheEntry` is the
spec's ` value, expiresAt ` record, owned exclusively by the cache. -/
structure CacheEntry (α : Type) where
  value : α
  expiresAt : Nat
deriving DecidableEq, Repr

/-- Modelled from the spec: the `WorkerCache` store — a mapping from the
composite key `(category, subKey?)` to an expiring entry, plus hit/miss
counters for `getStats`. -/
structure WorkerCache (α : Type) where
  entries : List ((String × Option String) × CacheEntry α) := []
  hitCount : Nat := 0
  missCount : Nat := 0
deriving DecidableEq, Repr

/-- Modelled from the spec: `get(category, subKey?)` returns the stored
value only if present and `now < expiresAt`; otherwise it behaves as a
miss and evicts the stale entry. -/
def cacheGet {α : Type} (now : Nat) (c : WorkerCache α) (category : String)
    (subKey : Option String) : Option α × WorkerCache α :=
  match c.entries.find? (fun e => e.1 = (category, subKey)) with
  | some e =>
    if now < e.2.expiresAt then
      (some e.2.value, { c with hitCount := c.hitCount + 1 })
    else
      (none,
        { c with
          entries := c.entries.filter (fun e2 => !(decide (e2.1 = (category, subKey)))),
          missCount := c.missCount + 1 })
  | none => (none, { c with missCount := c.missCount + 1 })

/-- Modelled from the spec: `set(category, value, subKey?, ttl)` stores
the value with `expiresAt = now + ttl`, overwriting any existing entry
for the same key. -/
def cacheSet {α : Type} (now : Nat) (c : WorkerCache α) (category : String)
    (value : α) (subKey : Option String) (ttl : Nat) : WorkerCache α :=
  { c with entries := upsert c.entries (category, subKey) ⟨value, now + ttl⟩ }

/-- Modelled from the spec: the default TTL is minutes-scale; five
minutes in milliseconds. -/
def defaultCacheTTLMs : Nat := 300000

/- ----------------------------------------------------------------
Document model: what the cheerio selectors used by gradescope.ts
extract from each HTML page.
---------------------------------------------------------------- -/

/-- One entry of the instructor view's `table_data` JSON
(`div[data-react-class="AssignmentsTable"]`): the `submission_window`
object with the three date strings read by the parser. -/
structure SubmissionWindow where
  release_date : Option String := none
  due_date : Option String := none
  hard_due_date : Option String := none
deriving DecidableEq, Repr

/-- One entry of the instructor view's `table_data` JSON array, with the
fields read by `parseAssignmentsInstructorView`. -/
structure TableEntry where
  type : String := ""
  url : Option String := none
  title : Option String := none
  submission_window : Option SubmissionWindow := none
  total_points : Option String := none
deriving DecidableEq, Repr

/-- The `data-react-props` attribute of the instructor-view assignments
table as seen by `parseAssignmentsInstructorView`: the element may be
absent, the attribute may be absent or empty, the JSON may fail to
parse, or it parses to a `table_data` array (empty when the JSON has no
`table_data` field). -/
inductive ReactProps where
  | noElement : ReactProps
  | noProps : ReactProps
  | malformed : ReactProps
  | parsed : List TableEntry → ReactProps
deriving DecidableEq, Repr

/-- One cell (`th`/`td`) of a student-view assignments row, with the
data `parseAssignmentsStudentView` extracts from it: its text, the `href` of the first `a[href]` inside it, the
`data-assignment-id` of the first `button.js-submitAssignment` (outer
`none` = no button, inner `none` = attribute absent), the `datetime` of
the first release-date marker, and the `datetime` attributes of the
due-date markers in order. -/
structure Cell where
  text : String := ""
  linkHref : Option String := none
  buttonId : Option (Option String) := none
  releaseDate : Option (Option String) := none
  dueDates : List (Option String) := []
deriving DecidableEq, Repr

/-- One `tr[role="row"]` of the student-view assignments table. -/
structure Row where
  cells : List Cell := []
deriving DecidableEq, Repr

/-- One course anchor inside a term section of the account page, with
the text of each sub-element `parseCoursesFromHTML` reads (each
`Option` is `none` when the selector matches nothing). -/
structure CourseAnchor where
  href : Option String := none
  shortname : String := ""
  fullName : String := ""
  noGradesPublished : Option String := none
  assignmentsUnpublished : Option String := none
  assignmentsText : Option String := none
deriving DecidableEq, Repr

/-- One `.courseList--term` section: its leading text (semester/year)
and its course anchors. -/
structure TermSection where
  termText : String := ""
  anchors : List CourseAnchor := []
deriving DecidableEq, Repr

/-- One `h1.pageHeading` of the account page: its text, the text of the
button right after it (`""` when there is none), and the following
`.courseList` when present. -/
structure AccountHeading where
  text : String := ""
  nextButtonText : String := ""
  courseList : Option (List TermSection) := none
deriving DecidableEq, Repr

/-- An HTML document as seen through the selectors of gradescope.ts:
the login form's `authenticity_token`, the `csrf-token` meta tag, the
account-page headings, the instructor-view react props and the
student-view table rows. -/
structure PageDoc where
  authenticity_token : Option String := none
  csrf_token : Option String := none
  account : List AccountHeading := []
  reactProps : ReactProps := ReactProps.noElement
  rows : List Row := []
deriving DecidableEq, Repr

/-- The body of a fetched response: `response.text()` either throws or
yields a document. -/
inductive Body where
  | throwText : Body
  | page : PageDoc → Body
deriving DecidableEq, Repr

/-- A fetched HTTP response: status, `Set-Cookie` header values,
`location` header, body. -/
structure Response where
  status : Nat := 200
  setCookies : List String := []
  location : Option String := none
  body : Body := Body.page {}
deriving DecidableEq, Repr

/-- `response.ok` — status in the 2xx range. -/
def respOk (r : Response) : Bool :=
  decide (200 ≤ r.status ∧ r.status < 300)

/-- Outcome of one `fetch` call: either the promise rejects (network
exception) or it resolves to a response. -/
inductive FetchResult where
  | err : FetchResult
  | net : Response → FetchResult
deriving DecidableEq, Repr

/- ----------------------------------------------------------------
Data model of the parsed entities.
---------------------------------------------------------------- -/

/-- A parsed Gradescope course (interface GradescopeCourse). -/
structure GCourse where
  id : String := ""
  name : String := ""
  full_name : String := ""
  semester : String := ""
  year : String := ""
  num_grades_published : Option String := none
  num_assignments : String := ""
deriving DecidableEq, Repr

/-- A parsed Gradescope assignment (interface GradescopeAssignment);
dates are modelled by the datetime strings handed to `new Date`. -/
structure GAssignment where
  assignment_id : String := ""
  name : String := ""
  release_date : Option String := none
  due_date : Option String := none
  late_due_date : Option String := none
  submissions_status : Option String := none
  grade : Option JsNum := none
  max_grade : Option JsNum := none
deriving DecidableEq, Repr

/-- The course groups returned by `getGradescopeCourses`, keyed by the
serialized `Course ID: ...` strings. -/
structure CourseGroups where
  student : List (String × GCourse) := []
  instructor : List (String × GCourse) := []
deriving DecidableEq, Repr

/-- The mutable fields of `GradescopeApi` (plus its injected cache,
split by value type, and the current clock for the cache). -/
structure GsState where
  cookies : List (String × String) := []
  isAuthenticated : Bool := false
  csrfToken : String := ""
  coursesCache : WorkerCache CourseGroups := {}
  assignmentsCache : WorkerCache (List GAssignment) := {}
  now : Nat := 0
deriving DecidableEq, Repr

/-- Store a response's `Set-Cookie` values into the jar
(`this.cookieManager.setCookiesFromHeaders(response.headers)`). -/
def addCookies (st : GsState) (r : Response) : GsState :=
  { st with cookies := setCookiesFromHeaders st.cookies r.setCookies }

/- ----------------------------------------------------------------
The authentication flow of GradescopeApi. Each function consumes its
fetches from the front of the trace; an exhausted trace behaves like a
rejected fetch.
---------------------------------------------------------------- -/

/-- `GradescopeApi.getAuthTokenAndInitSession`: GET the homepage; on a
non-2xx response or a network/parse failure return `null`; otherwise
store the cookies and extract the login form's authenticity token
(missing or empty token gives `null`). -/
def getAuthTokenAndInitSession :
    List FetchResult → GsState → Option String × GsState × List FetchResult
  | [], st => (none, st, [])
  | FetchResult.err :: tr, st => (none, st, tr)
  | FetchResult.net r :: tr, st =>
    if respOk r then
      let st1 := addCookies st r
      match r.body with
      | Body.throwText => (none, st1, tr)
      | Body.page doc =>
        match truthy doc.authenticity_token with
        | none => (none, st1, tr)
        | some t => (some t, st1, tr)
    else (none, st, tr)

/-- `GradescopeApi.extractCSRFToken`: follow the login redirect; on a
2xx response store the cookies and, when the `csrf-token` meta tag is
present and non-empty, record it; every failure is swallowed. -/
def extractCSRFToken :
    List FetchResult → GsState → GsState × List FetchResult
  | [], st => (st, [])
  | FetchResult.err :: tr, st => (st, tr)
  | FetchResult.net r :: tr, st =>
    if respOk r then
      let st1 := addCookies st r
      match r.body with
      | Body.throwText => (st1, tr)
      | Body.page doc =>
        match truthy doc.csrf_token with
        | some t => ({ st1 with csrfToken := t }, tr)
        | none => (st1, tr)
    else (st, tr)

/-- `GradescopeApi.loginWithCredentials`: POST the credentials with
redirects disabled; always store the response cookies; success is
exactly an HTTP 302 status, in which case a present `location` header
is followed to scrape the CSRF token. -/
def loginWithCredentials :
    List FetchResult → GsState → Bool × GsState × List FetchResult
  | [], st => (false, st, [])
  | FetchResult.err :: tr, st => (false, st, tr)
  | FetchResult.net r :: tr, st =>
    let st1 := addCookies st r
    if r.status = 302 then
      match truthy r.location with
      | some _ =>
        let (st2, tr2) := extractCSRFToken tr st1
        (true, st2, tr2)
      | none => (true, st1, tr)
    else (false, st1, tr)

/-- `GradescopeApi.authenticate`: short-circuit when already
authenticated, otherwise run the two handshake steps; only full success
sets `isAuthenticated`. -/
def authenticate (tr : List FetchResult) (st : GsState) :
    Bool × GsState × List FetchResult :=
  if st.isAuthenticated then (true, st, tr)
  else
    match getAuthTokenAndInitSession tr st with
    | (none, st1, tr1) => (false, st1, tr1)
    | (some _, st1, tr1) =>
      match loginWithCredentials tr1 st1 with
      | (true, st2, tr2) => (true, { st2 with isAuthenticated := true }, tr2)
      | (false, st2, tr2) => (false, st2, tr2)

/-- `GradescopeApi.makeAuthenticatedRequest`: authenticate first (null
on failure); then fetch, store cookies, invalidate the session on 401,
drop other non-2xx responses, and hand back a 2xx response. -/
def makeAuthenticatedRequest (tr : List FetchResult) (st : GsState) :
    Option Response × GsState × List FetchResult :=
  match authenticate tr st with
  | (false, st1, tr1) => (none, st1, tr1)
  | (true, st1, tr1) =>
    match tr1 with
    | [] => (none, st1, [])
    | FetchResult.err :: tr2 => (none, st1, tr2)
    | FetchResult.net r :: tr2 =>
      let st2 := addCookies st1 r
      if r.status = 401 then (none, { st2 with isAuthenticated := false }, tr2)
      else if respOk r then (some r, st2, tr2)
      else (none, st2, tr2)

/- ----------------------------------------------------------------
HTML parsers.
---------------------------------------------------------------- -/

/-- `GradescopeApi.parseCoursesFromHTML`: locate the heading whose text
contains the requested user type, decide the instructor role from the
adjacent button, and collect every course of every term section into an
insertion-ordered mapping keyed by course id. -/
def parseCoursesFromHTML (account : List AccountHeading) (userType : String) :
    Option (List (String × GCourse) × Bool) :=
  match account.find? (fun h => jsIncludes h.text userType) with
  | none => none
  | some heading =>
    let isInstructor := jsIncludes (jsTrim heading.nextButtonText) "Create a new course"
    match heading.courseList with
    | none => some ([], isInstructor)
    | some terms =>
      let courses := terms.foldl
        (fun acc term =>
          let termText := jsTrim term.termText
          let parts := jsSplit termText " "
          let semester := parts.getD 0 ""
          let year := parts.getD 1 ""
          term.anchors.foldl
            (fun acc2 a =>
              match a.href with
              | none => acc2
              | some href =>
                if href = "" then acc2
                else
                  let courseId := (jsSplit href "/").getLastD ""
                  if courseId = "" then acc2
                  else
                    let shortName := jsTrim a.shortname
                    let fullName := jsTrim a.fullName
                    let instrMode := userType = "Instructor Courses" || isInstructor
                    let numGradesPublished :=
                      if instrMode then a.noGradesPublished.map jsTrim else none
                    let numAssignments :=
                      if instrMode then (a.assignmentsUnpublished.map jsTrim).getD ""
                      else (a.assignmentsText.map jsTrim).getD ""
                    upsert acc2 courseId
                      { id := courseId, name := shortName, full_name := fullName,
                        semester := semester, year := year,
                        num_grades_published := numGradesPublished,
                        num_assignments := numAssignments })
            acc)
        []
      some (courses, isInstructor)

/-- `GradescopeApi.parseAssignmentsInstructorView`: read the react props
of the assignments table; on any missing piece or JSON failure return
`null`; otherwise keep the `table_data` entries of type `assignment`. -/
def parseAssignmentsInstructorView (doc : PageDoc) : Option (List GAssignment) :=
  match doc.reactProps with
  | ReactProps.noElement => none
  | ReactProps.noProps => none
  | ReactProps.malformed => none
  | ReactProps.parsed td =>
    some (td.filterMap
      (fun a =>
        if a.type ≠ "assignment" then none
        else
          some
            { assignment_id :=
                match a.url with
                | some u => (jsSplit u "/").getLastD ""
                | none => "",
              name := a.title.getD "",
              release_date := truthy (a.submission_window.bind SubmissionWindow.release_date),
              due_date := truthy (a.submission_window.bind SubmissionWindow.due_date),
              late_due_date := truthy (a.submission_window.bind SubmissionWindow.hard_due_date),
              submissions_status := none,
              grade := none,
              max_grade :=
                match truthy a.total_points with
                | some s => some (parseFloatJs s)
                | none => none }))

/-- The per-row body of `parseAssignmentsStudentView`: rows with fewer
than three cells are skipped; the first cell gives name and assignment
id (link href segment 4, else the submit button's id), the second cell
gives the `X / Y` grade and the submission status, the third cell gives
the release/due/late-due datetimes. -/
def parseStudentRow (row : Row) : Option GAssignment :=
  match row.cells with
  | c0 :: c1 :: c2 :: _ =>
    let name := jsTrim c0.text
    let aid : Option String :=
      match c0.linkHref with
      | some href =>
        if href = "" then none else (jsSplit href "/").get? 4
      | none =>
        match c0.buttonId with
        | some attr => truthy attr
        | none => none
    let pointsText := jsTrim c1.text
    let hasSlash := jsIncludes pointsText " / "
    let parts := jsSplit pointsText " / "
    some
      { assignment_id := aid.getD "",
        name := name,
        release_date :=
          match c2.releaseDate with
          | some d => truthy d
          | none => none,
        due_date :=
          match c2.dueDates with
          | d :: _ => truthy d
          | [] => none,
        late_due_date :=
          match c2.dueDates with
          | _ :: d :: _ => truthy d
          | _ => none,
        submissions_status := some (if hasSlash then "Submitted" else pointsText),
        grade := if hasSlash then some (parseFloatJs (parts.getD 0 "")) else none,
        max_grade := if hasSlash then some (parseFloatJs (parts.getD 1 "")) else none }
  | _ => none

/-- `GradescopeApi.parseAssignmentsStudentView`: parse every
`tr[role="row"]` except the header (first) and footer (last) rows. -/
def parseAssignmentsStudentView (doc : PageDoc) : List GAssignment :=
  ((doc.rows.drop 1).dropLast).filterMap parseStudentRow

/-- The parse strategy inlined in `getGradescopeAssignments`: try the
instructor view first; when it yields nothing (no data block or an
empty list), fall back to the student view. -/
def parseAssignmentsFromPage (doc : PageDoc) : List GAssignment :=
  match parseAssignmentsInstructorView doc with
  | some l => if l.isEmpty then parseAssignmentsStudentView doc else l
  | none => parseAssignmentsStudentView doc

/- ----------------------------------------------------------------
Public data operations.
---------------------------------------------------------------- -/

/-- `GradescopeApi.getGradescopeCourses`: serve from the cache when
fresh; otherwise fetch the account page through the authenticated
channel, parse the instructor/student sections (falling back to a
generic `Your Courses` section), serialize the groups under
`Course ID: ...` keys, cache and return them; every failure gives
`null`. -/
def getGradescopeCourses (tr : List FetchResult) (st : GsState) :
    Option CourseGroups × GsState × List FetchResult :=
  let got := cacheGet st.now st.coursesCache "gradescope_courses" none
  let st1 := { st with coursesCache := got.2 }
  match got.1 with
  | some cached => (some cached, st1, tr)
  | none =>
    match makeAuthenticatedRequest tr st1 with
    | (none, st2, tr2) => (none, st2, tr2)
    | (some r, st2, tr2) =>
      match r.body with
      | Body.throwText => (none, st2, tr2)
      | Body.page doc =>
        let instructor :=
          match parseCoursesFromHTML doc.account "Instructor Courses" with
          | some p => p.1
          | none => []
        let student :=
          match parseCoursesFromHTML doc.account "Student Courses" with
          | some p => p.1
          | none => []
        let groups :=
          if instructor.isEmpty && student.isEmpty then
            match parseCoursesFromHTML doc.account "Your Courses" with
            | some p => if p.2 then (student, p.1) else (p.1, instructor)
            | none => (student, instructor)
          else (student, instructor)
        let serialized : CourseGroups :=
          { student := groups.1.map (fun p => ("Course ID: " ++ p.1, p.2)),
            instructor := groups.2.map (fun p => ("Course ID: " ++ p.1, p.2)) }
        let st3 :=
          { st2 with
            coursesCache :=
              cacheSet st2.now st2.coursesCache "gradescope_courses" serialized none
                defaultCacheTTLMs }
        (some serialized, st3, tr2)

/-- The case-insensitive substring match of
`getGradescopeCourseByName` on a course's short and full names. -/
def courseNameMatches (c : GCourse) (courseName : String) : Bool :=
  jsIncludes (jsToLower c.name) (jsToLower courseName) ||
    jsIncludes (jsToLower c.full_name) (jsToLower courseName)

/-- The lookup loops of `getGradescopeCourseByName`: every student
course is checked before any instructor course; first match wins. -/
def findCourseByName (courses : CourseGroups) (courseName : String) : Option GCourse :=
  match (courses.student.map Prod.snd).find? (fun c => courseNameMatches c courseName) with
  | some c => some c
  | none => (courses.instructor.map Prod.snd).find? (fun c => courseNameMatches c courseName)

/-- `GradescopeApi.getGradescopeCourseByName`. -/
def getGradescopeCourseByName (tr : List FetchResult) (st : GsState)
    (courseName : String) : Option GCourse × GsState × List FetchResult :=
  match getGradescopeCourses tr st with
  | (none, st1, tr1) => (none, st1, tr1)
  | (some courses, st1, tr1) => (findCourseByName courses courseName, st1, tr1)

/-- `GradescopeApi.getGradescopeAssignments`: serve from the cache when
fresh; otherwise fetch the course page, parse it (instructor view with
student-view fallback), cache under the course id and return; every
failure gives `null`. -/
def getGradescopeAssignments (tr : List FetchResult) (st : GsState)
    (courseId : String) : Option (List GAssignment) × GsState × List FetchResult :=
  let got := cacheGet st.now st.assignmentsCache "gradescope_assignments" (some courseId)
  let st1 := { st with assignmentsCache := got.2 }
  match got.1 with
  | some cached => (some cached, st1, tr)
  | none =>
    match makeAuthenticatedRequest tr st1 with
    | (none, st2, tr2) => (none, st2, tr2)
    | (some r, st2, tr2) =>
      match r.body with
      | Body.throwText => (none, st2, tr2)
      | Body.page doc =>
        let assignments := parseAssignmentsFromPage doc
        let st3 :=
          { st2 with
            assignmentsCache :=
              cacheSet st2.now st2.assignmentsCache "gradescope_assignments" assignments
                (some courseId) defaultCacheTTLMs }
        (some assignments, st3, tr2)

/-- `GradescopeApi.getGradescopeAssignmentByName`: case-insensitive
substring match over the course's assignments; first match wins. -/
def getGradescopeAssignmentByName (tr : List FetchResult) (st : GsState)
    (courseId assignmentName : String) :
    Option GAssignment × GsState × List FetchResult :=
  match getGradescopeAssignments tr st courseId with
  | (none, st1, tr1) => (none, st1, tr1)
  | (some l, st1, tr1) =>
    (l.find? (fun a => jsIncludes (jsToLower a.name) (jsToLower assignmentName)), st1, tr1)

/- ----------------------------------------------------------------
Query analyzer.
---------------------------------------------------------------- -/

/-- The query intents of `GradescopeQueryAnalysis.type`. -/
inductive QueryType where
  | get_courses : QueryType
  | get_assignments : QueryType
  | get_submission : QueryType
deriving DecidableEq, Repr

/-- The `type`/`confidence` result of `analyzeGradescopeQuery`. -/
structure QueryAnalysis where
  type : Option QueryType := none
  confidence : ℚ := 0
deriving DecidableEq, Repr

/-- The keyword group detected first by `analyzeGradescopeQuery`. -/
def coursesKeywords : List String :=
  ["my courses", "list courses", "show courses", "what courses"]

/-- The keyword group detected second by `analyzeGradescopeQuery`. -/
def assignmentsKeywords : List String :=
  ["assignments", "homework", "due dates"]

/-- The keyword group detected third by `analyzeGradescopeQuery`. -/
def submissionKeywords : List String :=
  ["submission", "submitted", "grade", "feedback", "score"]

/-- `GradescopeApi.analyzeGradescopeQuery`: lowercase the query, then
test the three keyword groups in priority order. -/
def analyzeGradescopeQuery (query : String) : QueryAnalysis :=
  let queryLower := jsToLower query
  if coursesKeywords.any (fun k => jsIncludes queryLower k) then
    { type := some QueryType.get_courses, confidence := 9 / 10 }
  else if assignmentsKeywords.any (fun k => jsIncludes queryLower k) then
    { type := some QueryType.get_assignments, confidence := 8 / 10 }
  else if submissionKeywords.any (fun k => jsIncludes queryLower k) then
    { type := some QueryType.get_submission, confidence := 7 / 10 }
  else
    { type := none, confidence := 0 }

/- ----------------------------------------------------------------
Helper lemmas.
---------------------------------------------------------------- -/

theorem mapLookup_upsert {κ α : Type} [DecidableEq κ] (l : List (κ × α)) (k : κ)
    (v : α) (m : κ) :
    mapLookup (upsert l k v) m = if m = k then some v else mapLookup l m := by
  induction l with
  | nil =>
    by_cases h : m = k
    · subst h; simp [upsert, mapLookup]
    · simp [upsert, mapLookup, h, Ne.symm h]
  | cons p t ih =>
    obtain ⟨k2, v2⟩ := p
    by_cases h2 : k2 = k
    · subst h2
      by_cases hm : m = k2
      · subst hm; simp [upsert, mapLookup]
      · simp [upsert, mapLookup, hm, Ne.symm hm]
    · by_cases hm : m = k2
      · subst hm
        simp [upsert, mapLookup, h2, Ne.symm h2]
      · simp [upsert, mapLookup, h2, Ne.symm hm, hm, ih]

theorem upsert_of_fresh {κ α : Type} [DecidableEq κ] (l : List (κ × α)) (k : κ)
    (v : α) (h : l.any (fun p => p.1 = k) = false) :
    upsert l k v = l ++ [(k, v)] := by
  induction l with
  | nil => rfl
  | cons p t ih =>
    obtain ⟨k2, v2⟩ := p
    simp only [List.any_cons, Bool.or_eq_false_iff, decide_eq_false_iff_not] at h
    simp [upsert, h.1, ih h.2]

theorem find?_key_upsert {κ α : Type} [DecidableEq κ] (l : List (κ × α)) (k : κ)
    (v : α) :
    (upsert l k v).find? (fun p => p.1 = k) = some (k, v) := by
  induction l with
  | nil => simp [upsert, List.find?]
  | cons p t ih =>
    obtain ⟨k2, v2⟩ := p
    by_cases h : k2 = k <;> simp [upsert, h, List.find?, ih]

/- ----------------------------------------------------------------
Claim theorems.
---------------------------------------------------------------- -/

/-- C4: after `set(k, v, ttl=T)` at time `now0`, a `get(k)` strictly
before `T` has elapsed returns `v`, and a `get(k)` after `T` has
elapsed returns absent; a key without an entry always misses — in
particular every key on a cache it was never set in. -/
theorem cache_ttl_semantics {α : Type} (c : WorkerCache α) (now0 t ttl : Nat)
    (category : String) (subKey : Option String) (v : α) :
    (t < now0 + ttl →
      (cacheGet t (cacheSet now0 c category v subKey ttl) category subKey).1 = some v) ∧
    (now0 + ttl < t →
      (cacheGet t (cacheSet now0 c category v subKey ttl) category subKey).1 = none) ∧
    (∀ c2 : WorkerCache α,
      c2.entries.find? (fun e => e.1 = (category, subKey)) = none →
      (cacheGet t c2 category subKey).1 = none) ∧
    ((cacheGet t ({} : WorkerCache α) category subKey).1 = none) := by
  have hf := find?_key_upsert c.entries (category, subKey) (CacheEntry.mk v (now0 + ttl))
  refine ⟨fun h => ?_, fun h => ?_, fun c2 h => ?_, ?_⟩
  · simp [cacheGet, cacheSet, hf, h]
  · have h2 : ¬ t < now0 + ttl := by omega
    simp [cacheGet, cacheSet, hf, h2]
  · simp [cacheGet, h]
  · simp [cacheGet, List.find?]

/-- C4 witness at a concrete instant. -/
theorem cache_ttl_semantics_witness :
    (cacheGet 5 (cacheSet 0 ({} : WorkerCache Nat) "gradescope_courses" 42 none 10)
        "gradescope_courses" none).1 = some 42 ∧
    (cacheGet 11 (cacheSet 0 ({} : WorkerCache Nat) "gradescope_courses" 42 none 10)
        "gradescope_courses" none).1 = none :=
  ⟨(cache_ttl_semantics ({} : WorkerCache Nat) 0 5 10 "gradescope_courses" none 42).1
      (by decide),
    (cache_ttl_semantics ({} : WorkerCache Nat) 0 11 10 "gradescope_courses" none 42).2.1
      (by decide)⟩

/-- C5: the jar keeps only the name=value part of a Set-Cookie entry
(attributes after the first `;` are dropped), upserts by name — the
last write wins and a fresh name is appended in insertion order — and
serialization joins the held cookies with `; `; ingesting the entry
`a=1` and then the entries `a=2` and `b=3` therefore serializes to a
string with `a=2` and `b=3` but no `a=1`. -/
theorem cookie_jar_semantics :
    (∀ (jar : List (String × String)) (n v m : String),
      mapLookup (upsert jar n v) m = if m = n then some v else mapLookup jar m) ∧
    (∀ (jar : List (String × String)) (n v : String),
      jar.any (fun p => p.1 = n) = false → upsert jar n v = jar ++ [(n, v)]) ∧
    (parseSetCookie "sess=abc; path=/; expires=Tue; HttpOnly" = some ("sess", "abc")) ∧
    (getCookieString (setCookiesFromHeaders (setCookiesFromHeaders [] ["a=1"]) ["a=2", "b=3"])
        = "a=2; b=3") ∧
    (jsIncludes (getCookieString
        (setCookiesFromHeaders (setCookiesFromHeaders [] ["a=1"]) ["a=2", "b=3"])) "a=2"
        = true) ∧
    (jsIncludes (getCookieString
        (setCookiesFromHeaders (setCookiesFromHeaders [] ["a=1"]) ["a=2", "b=3"])) "b=3"
        = true) ∧
    (jsIncludes (getCookieString
        (setCookiesFromHeaders (setCookiesFromHeaders [] ["a=1"]) ["a=2", "b=3"])) "a=1"
        = false) :=
  ⟨mapLookup_upsert, upsert_of_fresh, by decide, by decide, by decide, by decide, by decide⟩

/-- C5 witness: the upsert rules applied at concrete cookies. -/
theorem cookie_jar_semantics_witness :
    mapLookup (upsert [("a", "1")] "a" "2") "a" = some "2" ∧
    upsert [("a", "2")] "b" "3" = [("a", "2"), ("b", "3")] :=
  ⟨by rw [cookie_jar_semantics.1 [("a", "1")] "a" "2" "a"]; decide,
    cookie_jar_semantics.2.1 [("a", "2")] "b" "3" (by decide)⟩

/-- C10: the query analyzer is a total function whose confidence is
always one of 0.9, 0.8, 0.7, 0; its type is null exactly when its
confidence is 0; and the keyword groups are tested in the fixed
priority order courses, then assignments, then submission/grade. -/
theorem analyze_query_classification (q : String) :
    ((analyzeGradescopeQuery q).confidence = 9 / 10 ∨
      (analyzeGradescopeQuery q).confidence = 8 / 10 ∨
      (analyzeGradescopeQuery q).confidence = 7 / 10 ∨
      (analyzeGradescopeQuery q).confidence = 0) ∧
    ((analyzeGradescopeQuery q).type = none ↔ (analyzeGradescopeQuery q).confidence = 0) ∧
    (coursesKeywords.any (fun k => jsIncludes (jsToLower q) k) = true →
      analyzeGradescopeQuery q =
        { type := some QueryType.get_courses, confidence := 9 / 10 }) ∧
    (coursesKeywords.any (fun k => jsIncludes (jsToLower q) k) = false →
      assignmentsKeywords.any (fun k => jsIncludes (jsToLower q) k) = true →
      analyzeGradescopeQuery q =
        { type := some QueryType.get_assignments, confidence := 8 / 10 }) ∧
    (coursesKeywords.any (fun k => jsIncludes (jsToLower q) k) = false →
      assignmentsKeywords.any (fun k => jsIncludes (jsToLower q) k) = false →
      submissionKeywords.any (fun k => jsIncludes (jsToLower q) k) = true →
      analyzeGradescopeQuery q =
        { type := some QueryType.get_submission, confidence := 7 / 10 }) ∧
    (coursesKeywords.any (fun k => jsIncludes (jsToLower q) k) = false →
      assignmentsKeywords.any (fun k => jsIncludes (jsToLower q) k) = false →
      submissionKeywords.any (fun k => jsIncludes (jsToLower q) k) = false →
      analyzeGradescopeQuery q = { type := none, confidence := 0 }) := by
  by_cases h1 : coursesKeywords.any (fun k => jsIncludes (jsToLower q) k) = true
  · refine ⟨?_, ?_, ?_, ?_, ?_, ?_⟩ <;>
      simp [analyzeGradescopeQuery, h1]
  · rw [Bool.not_eq_true] at h1
    by_cases h2 : assignmentsKeywords.any (fun k => jsIncludes (jsToLower q) k) = true
    · refine ⟨?_, ?_, ?_, ?_, ?_, ?_⟩ <;>
        simp [analyzeGradescopeQuery, h1, h2]
    · rw [Bool.not_eq_true] at h2
      by_cases h3 : submissionKeywords.any (fun k => jsIncludes (jsToLower q) k) = true
      · refine ⟨?_, ?_, ?_, ?_, ?_, ?_⟩ <;>
          simp [analyzeGradescopeQuery, h1, h2, h3]
      · rw [Bool.not_eq_true] at h3
        refine ⟨?_, ?_, ?_, ?_, ?_, ?_⟩ <;>
          simp [analyzeGradescopeQuery, h1, h2, h3]

/-- C10 witness: a query holding keywords of all three groups is
classified by the highest-priority group. -/
theorem analyze_query_classification_witness :
    analyzeGradescopeQuery "show courses with homework and my grade" =
      { type := some QueryType.get_courses, confidence := 9 / 10 } :=
  (analyze_query_classification "show courses with homework and my grade").2.2.1
    (by decide)

/- ----------------------------------------------------------------
Lemmas about the authentication flow.
---------------------------------------------------------------- -/

theorem addCookies_isAuth (st : GsState) (r : Response) :
    (addCookies st r).isAuthenticated = st.isAuthenticated := rfl

theorem gats_trace (tr : List FetchResult) (st : GsState) :
    (getAuthTokenAndInitSession tr st).2.2 = tr.tail := by
  cases tr with
  | nil => rfl
  | cons f rest =>
    cases f with
    | err => rfl
    | net r =>
      simp only [getAuthTokenAndInitSession, List.tail_cons]
      repeat' split
      all_goals rfl

theorem extract_trace (tr : List FetchResult) (st : GsState) :
    (extractCSRFToken tr st).2 = tr.tail := by
  cases tr with
  | nil => rfl
  | cons f rest =>
    cases f with
    | err => rfl
    | net r =>
      simp only [extractCSRFToken, List.tail_cons]
      repeat' split
      all_goals rfl

theorem login_trace (tr : List FetchResult) (st : GsState) :
    tr.length ≤ ((loginWithCredentials tr st).2.2).length + 2 := by
  cases tr with
  | nil => simp [loginWithCredentials]
  | cons f rest =>
    cases f with
    | err => simp [loginWithCredentials]
    | net r =>
      rcases he : extractCSRFToken rest (addCookies st r) with ⟨st2, tr2⟩
      have h2 := extract_trace rest (addCookies st r)
      rw [he] at h2
      simp only at h2
      simp only [loginWithCredentials, he, List.length_cons]
      repeat' split
      all_goals simp_all [List.length_tail]
      all_goals omega

theorem auth_trace (tr : List FetchResult) (st : GsState) :
    tr.length ≤ ((authenticate tr st).2.2).length + 3 := by
  by_cases h : st.isAuthenticated
  · simp [authenticate, h]
  · rcases hg : getAuthTokenAndInitSession tr st with ⟨tok, st1, tr1⟩
    have h1 := gats_trace tr st
    rw [hg] at h1
    simp only at h1
    cases tok with
    | none =>
      simp only [authenticate, h, if_false, hg, Bool.false_eq_true]
      rw [h1]
      simp [List.length_tail]
      omega
    | some t =>
      rcases hl : loginWithCredentials tr1 st1 with ⟨b, st2, tr2⟩
      have h2 := login_trace tr1 st1
      rw [hl] at h2
      simp only at h2
      cases b <;>
        simp only [authenticate, h, if_false, hg, hl, Bool.false_eq_true] <;>
        rw [h1] at h2 <;>
        simp only [List.length_tail] at h2 <;>
        omega

theorem mar_trace (tr : List FetchResult) (st : GsState) :
    tr.length ≤ ((makeAuthenticatedRequest tr st).2.2).length + 4 := by
  rcases ha : authenticate tr st with ⟨b, st1, tr1⟩
  have h1 := auth_trace tr st
  rw [ha] at h1
  simp only at h1
  cases b
  · simp only [makeAuthenticatedRequest, ha]
    omega
  · cases tr1 with
    | nil =>
      simp only [makeAuthenticatedRequest, ha, List.length_nil] at h1 ⊢
      omega
    | cons f tr2 =>
      cases f with
      | err =>
        simp only [makeAuthenticatedRequest, ha, List.length_cons] at h1 ⊢
        omega
      | net r =>
        simp only [makeAuthenticatedRequest, ha, List.length_cons] at h1 ⊢
        repeat' split
        all_goals dsimp only
        all_goals omega

theorem login_302_true (r : Response) (tr : List FetchResult) (s : GsState)
    (h : r.status = 302) :
    (loginWithCredentials (FetchResult.net r :: tr) s).1 = true := by
  simp only [loginWithCredentials, h, if_true]
  cases hloc : truthy r.location with
  | none => simp
  | some loc =>
    rcases he : extractCSRFToken tr (addCookies s r) with ⟨a, c⟩
    simp [he]

theorem login_non302_false (r : Response) (tr : List FetchResult) (s : GsState)
    (h : ¬ r.status = 302) :
    loginWithCredentials (FetchResult.net r :: tr) s = (false, addCookies s r, tr) := by
  simp [loginWithCredentials, h]

/-- C1: with the handshake reaching the login POST (home page OK, token
present), authentication succeeds exactly on an HTTP 302 login
response: any other status leaves `isAuthenticated` false, the
handshake reports failure, and the data operation that triggered it
returns null. -/
theorem login_success_iff_302
    (st : GsState) (tr : List FetchResult) (hr r : Response) (d : PageDoc) (tok : String)
    (hauth : st.isAuthenticated = false)
    (hok : respOk hr = true)
    (hbody : hr.body = Body.page d)
    (htok : truthy d.authenticity_token = some tok) :
    (r.status ≠ 302 →
      (authenticate (FetchResult.net hr :: FetchResult.net r :: tr) st).1 = false ∧
      ((authenticate (FetchResult.net hr :: FetchResult.net r :: tr) st).2.1).isAuthenticated
        = false ∧
      (makeAuthenticatedRequest (FetchResult.net hr :: FetchResult.net r :: tr) st).1 = none) ∧
    (r.status = 302 →
      (authenticate (FetchResult.net hr :: FetchResult.net r :: tr) st).1 = true ∧
      ((authenticate (FetchResult.net hr :: FetchResult.net r :: tr) st).2.1).isAuthenticated
        = true) := by
  have hg : getAuthTokenAndInitSession
      (FetchResult.net hr :: FetchResult.net r :: tr) st =
      (some tok, addCookies st hr, FetchResult.net r :: tr) := by
    simp [getAuthTokenAndInitSession, hok, hbody, htok]
  constructor
  · intro hne
    have hl := login_non302_false r tr (addCookies st hr) hne
    have hA : authenticate (FetchResult.net hr :: FetchResult.net r :: tr) st =
        (false, addCookies (addCookies st hr) r, tr) := by
      simp [authenticate, hauth, hg, hl]
    refine ⟨by rw [hA], ?_, ?_⟩
    · rw [hA]
      simp [addCookies_isAuth, hauth]
    · simp [makeAuthenticatedRequest, hA]
  · intro h302
    rcases hl : loginWithCredentials (FetchResult.net r :: tr) (addCookies st hr)
      with ⟨b, st2, tr2⟩
    have hbt := login_302_true r tr (addCookies st hr) h302
    rw [hl] at hbt
    simp only at hbt
    subst hbt
    have hA : authenticate (FetchResult.net hr :: FetchResult.net r :: tr) st =
        (true, { st2 with isAuthenticated := true }, tr2) := by
      simp [authenticate, hauth, hg, hl]
    rw [hA]
    exact ⟨rfl, rfl⟩

/-- C1 witness: a 200 login response (concrete mock) leaves the client
unauthenticated and the data request returns null; a 302 one
authenticates. -/
theorem login_success_iff_302_witness :
    ((authenticate
        [FetchResult.net { body := Body.page { authenticity_token := some "tok" } },
          FetchResult.net { status := 200 }] {}).2.1).isAuthenticated = false ∧
    (authenticate
        [FetchResult.net { body := Body.page { authenticity_token := some "tok" } },
          FetchResult.net { status := 302 }] {}).1 = true :=
  ⟨((login_success_iff_302 {} [] { body := Body.page { authenticity_token := some "tok" } }
        { status := 200 } { authenticity_token := some "tok" } "tok"
        rfl (by decide) rfl (by decide)).1 (by decide)).2.1,
    ((login_success_iff_302 {} [] { body := Body.page { authenticity_token := some "tok" } }
        { status := 302 } { authenticity_token := some "tok" } "tok"
        rfl (by decide) rfl (by decide)).2 rfl).1⟩

/-- C9: on an authenticated request, only an HTTP 401 clears the
authentication flag: a network exception leaves the whole state
untouched, and any other non-2xx response returns null with
`isAuthenticated` still true, so the next call short-circuits the
handshake and reuses the session. -/
theorem only_401_clears_session
    (st : GsState) (r : Response) (tr : List FetchResult)
    (hauth : st.isAuthenticated = true) :
    (makeAuthenticatedRequest (FetchResult.err :: tr) st = (none, st, tr)) ∧
    (respOk r = false → r.status ≠ 401 →
      (makeAuthenticatedRequest (FetchResult.net r :: tr) st).1 = none ∧
      ((makeAuthenticatedRequest (FetchResult.net r :: tr) st).2.1).isAuthenticated = true ∧
      (makeAuthenticatedRequest (FetchResult.net r :: tr) st).2.2 = tr ∧
      (∀ tr2 : List FetchResult,
        authenticate tr2 ((makeAuthenticatedRequest (FetchResult.net r :: tr) st).2.1) =
          (true, (makeAuthenticatedRequest (FetchResult.net r :: tr) st).2.1, tr2))) := by
  have ha : ∀ tr0 : List FetchResult, authenticate tr0 st = (true, st, tr0) := by
    intro tr0
    simp [authenticate, hauth]
  constructor
  · simp [makeAuthenticatedRequest, ha]
  · intro hok h401
    have hM : makeAuthenticatedRequest (FetchResult.net r :: tr) st =
        (none, addCookies st r, tr) := by
      simp [makeAuthenticatedRequest, ha, h401, hok]
    rw [hM]
    refine ⟨rfl, by simp [addCookies_isAuth, hauth], rfl, ?_⟩
    intro tr2
    simp [authenticate, addCookies_isAuth, hauth]

/-- C9 witness: a concrete 500 response returns null and keeps the
session authenticated. -/
theorem only_401_clears_session_witness :
    (makeAuthenticatedRequest [FetchResult.net { status := 500 }]
        { isAuthenticated := true }).1 = none ∧
    ((makeAuthenticatedRequest [FetchResult.net { status := 500 }]
        { isAuthenticated := true }).2.1).isAuthenticated = true :=
  ⟨((only_401_clears_session { isAuthenticated := true } { status := 500 } [] rfl).2
      (by decide) (by decide)).1,
    ((only_401_clears_session { isAuthenticated := true } { status := 500 } [] rfl).2
      (by decide) (by decide)).2.1⟩

/-- C2: an authenticated request that receives HTTP 401 returns null,
sets `isAuthenticated` to false, and does not retry — the rest of the
trace is untouched; every operation consumes at most four fetches (so
at most one re-authentication attempt per operation); and the next
operation on the invalidated state re-runs the full handshake and
succeeds given good responses. -/
theorem http401_invalidates_session
    (st : GsState) (r : Response) (tr : List FetchResult)
    (hauth : st.isAuthenticated = true) (h401 : r.status = 401) :
    (makeAuthenticatedRequest (FetchResult.net r :: tr) st).1 = none ∧
    ((makeAuthenticatedRequest (FetchResult.net r :: tr) st).2.1).isAuthenticated = false ∧
    (makeAuthenticatedRequest (FetchResult.net r :: tr) st).2.2 = tr ∧
    (∀ (tr2 : List FetchResult) (st2 : GsState),
      tr2.length ≤ ((makeAuthenticatedRequest tr2 st2).2.2).length + 4) ∧
    (∀ (hr lr dr : Response) (d : PageDoc) (tok : String) (tr3 : List FetchResult),
      respOk hr = true → hr.body = Body.page d → truthy d.authenticity_token = some tok →
      lr.status = 302 → lr.location = none → respOk dr = true →
      (makeAuthenticatedRequest
          (FetchResult.net hr :: FetchResult.net lr :: FetchResult.net dr :: tr3)
          ((makeAuthenticatedRequest (FetchResult.net r :: tr) st).2.1)).1 = some dr ∧
      ((makeAuthenticatedRequest
          (FetchResult.net hr :: FetchResult.net lr :: FetchResult.net dr :: tr3)
          ((makeAuthenticatedRequest (FetchResult.net r :: tr) st).2.1)).2.1).isAuthenticated
        = true) := by
  have ha : ∀ tr0 : List FetchResult, authenticate tr0 st = (true, st, tr0) := by
    intro tr0
    simp [authenticate, hauth]
  have hM : makeAuthenticatedRequest (FetchResult.net r :: tr) st =
      (none, { addCookies st r with isAuthenticated := false }, tr) := by
    simp [makeAuthenticatedRequest, ha, h401]
  refine ⟨by rw [hM], by rw [hM], by rw [hM], mar_trace, ?_⟩
  intro hr lr dr d tok tr3 hok hbody htok h302 hloc hdr
  rw [hM]
  have hg : getAuthTokenAndInitSession
      (FetchResult.net hr :: FetchResult.net lr :: FetchResult.net dr :: tr3)
      { addCookies st r with isAuthenticated := false } =
      (some tok, addCookies { addCookies st r with isAuthenticated := false } hr,
        FetchResult.net lr :: FetchResult.net dr :: tr3) := by
    simp [getAuthTokenAndInitSession, hok, hbody, htok]
  have hl : loginWithCredentials (FetchResult.net lr :: FetchResult.net dr :: tr3)
      (addCookies { addCookies st r with isAuthenticated := false } hr) =
      (true,
        addCookies (addCookies { addCookies st r with isAuthenticated := false } hr) lr,
        FetchResult.net dr :: tr3) := by
    simp [loginWithCredentials, h302, hloc, truthy]
  have hA : authenticate
      (FetchResult.net hr :: FetchResult.net lr :: FetchResult.net dr :: tr3)
      { addCookies st r with isAuthenticated := false } =
      (true,
        { addCookies (addCookies { addCookies st r with isAuthenticated := false } hr) lr
          with isAuthenticated := true },
        FetchResult.net dr :: tr3) := by
    simp [authenticate, hg, hl]
  have hd401 : ¬ dr.status = 401 := by
    simp only [respOk, decide_eq_true_eq] at hdr
    omega
  simp [makeAuthenticatedRequest, hA, hd401, hdr, addCookies_isAuth]

/-- C2 witness: a concrete 401 response invalidates the session without
touching the rest of the trace. -/
theorem http401_invalidates_session_witness :
    (makeAuthenticatedRequest [FetchResult.net { status := 401 }]
        { isAuthenticated := true }).1 = none ∧
    ((makeAuthenticatedRequest [FetchResult.net { status := 401 }]
        { isAuthenticated := true }).2.1).isAuthenticated = false :=
  ⟨(http401_invalidates_session { isAuthenticated := true } { status := 401 } [] rfl rfl).1,
    (http401_invalidates_session { isAuthenticated := true } { status := 401 } [] rfl
        rfl).2.1⟩

/- ----------------------------------------------------------------
Cookie preservation through the handshake (claim C6).
---------------------------------------------------------------- -/

theorem mapLookup_isSome_upsert {κ α : Type} [DecidableEq κ] (l : List (κ × α))
    (k : κ) (v : α) (m : κ) (h : (mapLookup l m).isSome = true) :
    (mapLookup (upsert l k v) m).isSome = true := by
  rw [mapLookup_upsert]
  by_cases hm : m = k <;> simp [hm, h]

theorem mapLookup_isSome_setCookies (headers : List String)
    (jar : List (String × String)) (m : String)
    (h : (mapLookup jar m).isSome = true) :
    (mapLookup (setCookiesFromHeaders jar headers) m).isSome = true := by
  induction headers generalizing jar with
  | nil => exact h
  | cons c rest ih =>
    cases hp : parseSetCookie c with
    | none =>
      have he : setCookiesFromHeaders jar (c :: rest) = setCookiesFromHeaders jar rest := by
        simp [setCookiesFromHeaders, hp]
      rw [he]
      exact ih jar h
    | some p =>
      obtain ⟨n, v⟩ := p
      have he : setCookiesFromHeaders jar (c :: rest) =
          setCookiesFromHeaders (upsert jar n v) rest := by
        simp [setCookiesFromHeaders, hp]
      rw [he]
      exact ih _ (mapLookup_isSome_upsert jar n v m h)

theorem gats_cookies_keep (tr : List FetchResult) (st : GsState) (m : String)
    (h : (mapLookup st.cookies m).isSome = true) :
    (mapLookup ((getAuthTokenAndInitSession tr st).2.1).cookies m).isSome = true := by
  cases tr with
  | nil => exact h
  | cons f rest =>
    cases f with
    | err => exact h
    | net r =>
      simp only [getAuthTokenAndInitSession]
      repeat' split
      all_goals dsimp only [addCookies]
      all_goals first
        | exact h
        | exact mapLookup_isSome_setCookies _ _ _ h

theorem extract_cookies_keep (tr : List FetchResult) (st : GsState) (m : String)
    (h : (mapLookup st.cookies m).isSome = true) :
    (mapLookup ((extractCSRFToken tr st).1).cookies m).isSome = true := by
  cases tr with
  | nil => exact h
  | cons f rest =>
    cases f with
    | err => exact h
    | net r =>
      simp only [extractCSRFToken]
      repeat' split
      all_goals dsimp only [addCookies]
      all_goals first
        | exact h
        | exact mapLookup_isSome_setCookies _ _ _ h

theorem login_cookies_keep (tr : List FetchResult) (st : GsState) (m : String)
    (h : (mapLookup st.cookies m).isSome = true) :
    (mapLookup ((loginWithCredentials tr st).2.1).cookies m).isSome = true := by
  cases tr with
  | nil => exact h
  | cons f rest =>
    cases f with
    | err => exact h
    | net r =>
      have h1 : (mapLookup (addCookies st r).cookies m).isSome = true := by
        dsimp only [addCookies]
        exact mapLookup_isSome_setCookies _ _ _ h
      rcases he : extractCSRFToken rest (addCookies st r) with ⟨st2, tr2⟩
      have h2 : (mapLookup st2.cookies m).isSome = true := by
        have hx := extract_cookies_keep rest (addCookies st r) m h1
        rw [he] at hx
        exact hx
      simp only [loginWithCredentials, he]
      repeat' split
      all_goals first | exact h1 | exact h2

/-- C6 amended: `CookieManager.clear` empties the mapping but is never
invoked by the client; a forced re-authentication re-runs the handshake
over the existing jar, so every cookie name held before `authenticate`
is still held after it (same-named cookies are only overwritten by
upserts, never removed). -/
theorem reauth_keeps_existing_cookies (tr : List FetchResult) (st : GsState)
    (n : String) (h : (mapLookup st.cookies n).isSome = true) :
    (mapLookup ((authenticate tr st).2.1).cookies n).isSome = true := by
  by_cases hA : st.isAuthenticated
  · simp only [authenticate, hA, if_true]
    exact h
  · rcases hg : getAuthTokenAndInitSession tr st with ⟨tok, st1, tr1⟩
    have h1 : (mapLookup st1.cookies n).isSome = true := by
      have hx := gats_cookies_keep tr st n h
      rw [hg] at hx
      exact hx
    cases tok with
    | none =>
      simp only [authenticate, hA, if_false, hg, Bool.false_eq_true]
      exact h1
    | some t =>
      rcases hl : loginWithCredentials tr1 st1 with ⟨b, st2, tr2⟩
      have h2 : (mapLookup st2.cookies n).isSome = true := by
        have hx := login_cookies_keep tr1 st1 n h1
        rw [hl] at hx
        exact hx
      cases b <;> simp only [authenticate, hA, if_false, hg, hl, Bool.false_eq_true] <;>
        exact h2

/-- C6 amended witness: a stale cookie survives a concrete successful
re-authentication. -/
theorem reauth_keeps_existing_cookies_witness :
    (mapLookup ((authenticate
        [FetchResult.net { body := Body.page { authenticity_token := some "tok" } },
          FetchResult.net { status := 302 }]
        { cookies := [("old", "1")] }).2.1).cookies "old").isSome = true :=
  reauth_keeps_existing_cookies
    [FetchResult.net { body := Body.page { authenticity_token := some "tok" } },
      FetchResult.net { status := 302 }]
    { cookies := [("old", "1")] } "old" (by decide)

/-- C6 counterexample: an unauthenticated client holding a stale cookie
(the forced re-authentication situation) runs the full handshake
successfully, and the jar was never emptied — the stale cookie is still
present next to the new session cookie, contradicting the claim that
the mapping is emptied before the new session's cookies accumulate. -/
theorem reauth_does_not_clear_jar :
    (authenticate
        [FetchResult.net { body := Body.page { authenticity_token := some "tok" } },
          FetchResult.net { status := 302, setCookies := ["signed_token=abc; path=/; HttpOnly"] }]
        { cookies := [("old", "1")] }).1 = true ∧
    mapLookup ((authenticate
        [FetchResult.net { body := Body.page { authenticity_token := some "tok" } },
          FetchResult.net { status := 302, setCookies := ["signed_token=abc; path=/; HttpOnly"] }]
        { cookies := [("old", "1")] }).2.1).cookies "old" = some "1" ∧
    mapLookup ((authenticate
        [FetchResult.net { body := Body.page { authenticity_token := some "tok" } },
          FetchResult.net { status := 302, setCookies := ["signed_token=abc; path=/; HttpOnly"] }]
        { cookies := [("old", "1")] }).2.1).cookies "signed_token" = some "abc" := by
  refine ⟨by decide, by decide, by decide⟩

/- ----------------------------------------------------------------
Shapes of makeAuthenticatedRequest on an authenticated session.
---------------------------------------------------------------- -/

theorem mar_err (tr : List FetchResult) (s : GsState) (hs : s.isAuthenticated = true) :
    makeAuthenticatedRequest (FetchResult.err :: tr) s = (none, s, tr) := by
  simp [makeAuthenticatedRequest, authenticate, hs]

theorem mar_401 (r : Response) (tr : List FetchResult) (s : GsState)
    (hs : s.isAuthenticated = true) (h4 : r.status = 401) :
    makeAuthenticatedRequest (FetchResult.net r :: tr) s =
      (none, { addCookies s r with isAuthenticated := false }, tr) := by
  simp [makeAuthenticatedRequest, authenticate, hs, h4]

theorem mar_nok (r : Response) (tr : List FetchResult) (s : GsState)
    (hs : s.isAuthenticated = true) (h4 : ¬ r.status = 401) (hok : respOk r = false) :
    makeAuthenticatedRequest (FetchResult.net r :: tr) s = (none, addCookies s r, tr) := by
  simp [makeAuthenticatedRequest, authenticate, hs, h4, hok]

theorem mar_good (r : Response) (tr : List FetchResult) (s : GsState)
    (hs : s.isAuthenticated = true) (hok : respOk r = true) :
    makeAuthenticatedRequest (FetchResult.net r :: tr) s = (some r, addCookies s r, tr) := by
  have h4 : ¬ r.status = 401 := by
    simp only [respOk, decide_eq_true_eq] at hok
    omega
  simp [makeAuthenticatedRequest, authenticate, hs, h4, hok]

theorem byName_course_none (tr : List FetchResult) (st : GsState) (nm : String)
    (h : (getGradescopeCourses tr st).1 = none) :
    (getGradescopeCourseByName tr st nm).1 = none := by
  rcases hg : getGradescopeCourses tr st with ⟨o, st2, tr2⟩
  rw [hg] at h
  simp only at h
  subst h
  simp [getGradescopeCourseByName, hg]

theorem byName_assignment_none (tr : List FetchResult) (st : GsState)
    (cid nm : String) (h : (getGradescopeAssignments tr st cid).1 = none) :
    (getGradescopeAssignmentByName tr st cid nm).1 = none := by
  rcases hg : getGradescopeAssignments tr st cid with ⟨o, st2, tr2⟩
  rw [hg] at h
  simp only at h
  subst h
  simp [getGradescopeAssignmentByName, hg]

/-- C3: no public grading-site operation propagates a failure to its
caller — a rejected fetch (network exception), an HTTP 401, any other
non-2xx response, and a response body that fails to parse all turn into
a null result from each of the four operations (stated over empty
caches and an authenticated session so the fetch is the data
request). -/
theorem operations_fail_closed
    (st : GsState) (tr : List FetchResult) (cid nm : String) (r : Response)
    (hc : st.coursesCache.entries = []) (ha2 : st.assignmentsCache.entries = [])
    (hauth : st.isAuthenticated = true) :
    ((getGradescopeCourses (FetchResult.err :: tr) st).1 = none ∧
      (getGradescopeCourseByName (FetchResult.err :: tr) st nm).1 = none ∧
      (getGradescopeAssignments (FetchResult.err :: tr) st cid).1 = none ∧
      (getGradescopeAssignmentByName (FetchResult.err :: tr) st cid nm).1 = none) ∧
    (r.status = 401 ∨ respOk r = false →
      (getGradescopeCourses (FetchResult.net r :: tr) st).1 = none ∧
      (getGradescopeCourseByName (FetchResult.net r :: tr) st nm).1 = none ∧
      (getGradescopeAssignments (FetchResult.net r :: tr) st cid).1 = none ∧
      (getGradescopeAssignmentByName (FetchResult.net r :: tr) st cid nm).1 = none) ∧
    (respOk r = true → r.body = Body.throwText →
      (getGradescopeCourses (FetchResult.net r :: tr) st).1 = none ∧
      (getGradescopeCourseByName (FetchResult.net r :: tr) st nm).1 = none ∧
      (getGradescopeAssignments (FetchResult.net r :: tr) st cid).1 = none ∧
      (getGradescopeAssignmentByName (FetchResult.net r :: tr) st cid nm).1 = none) := by
  have hfc : st.coursesCache.entries.find?
      (fun e => e.1 = ("gradescope_courses", none)) = none := by
    rw [hc]; rfl
  have hcg : cacheGet st.now st.coursesCache "gradescope_courses" none =
      (none, { st.coursesCache with missCount := st.coursesCache.missCount + 1 }) := by
    simp [cacheGet, hfc]
  have hfa : st.assignmentsCache.entries.find?
      (fun e => e.1 = ("gradescope_assignments", some cid)) = none := by
    rw [ha2]; rfl
  have hca : cacheGet st.now st.assignmentsCache "gradescope_assignments" (some cid) =
      (none, { st.assignmentsCache with
        missCount := st.assignmentsCache.missCount + 1 }) := by
    simp [cacheGet, hfa]
  refine ⟨⟨?_, ?_, ?_, ?_⟩, fun hbad => ?_, fun hok hbody => ?_⟩
  · simp [getGradescopeCourses, hcg, mar_err, hauth]
  · apply byName_course_none
    simp [getGradescopeCourses, hcg, mar_err, hauth]
  · simp [getGradescopeAssignments, hca, mar_err, hauth]
  · apply byName_assignment_none
    simp [getGradescopeAssignments, hca, mar_err, hauth]
  · by_cases h4 : r.status = 401
    · refine ⟨?_, ?_, ?_, ?_⟩
      · simp [getGradescopeCourses, hcg, mar_401, hauth, h4]
      · apply byName_course_none
        simp [getGradescopeCourses, hcg, mar_401, hauth, h4]
      · simp [getGradescopeAssignments, hca, mar_401, hauth, h4]
      · apply byName_assignment_none
        simp [getGradescopeAssignments, hca, mar_401, hauth, h4]
    · have hnok : respOk r = false := by
        rcases hbad with h | h
        · exact absurd h h4
        · exact h
      refine ⟨?_, ?_, ?_, ?_⟩
      · simp [getGradescopeCourses, hcg, mar_nok, hauth, h4, hnok]
      · apply byName_course_none
        simp [getGradescopeCourses, hcg, mar_nok, hauth, h4, hnok]
      · simp [getGradescopeAssignments, hca, mar_nok, hauth, h4, hnok]
      · apply byName_assignment_none
        simp [getGradescopeAssignments, hca, mar_nok, hauth, h4, hnok]
  · refine ⟨?_, ?_, ?_, ?_⟩
    · simp [getGradescopeCourses, hcg, mar_good, hauth, hok, hbody]
    · apply byName_course_none
      simp [getGradescopeCourses, hcg, mar_good, hauth, hok, hbody]
    · simp [getGradescopeAssignments, hca, mar_good, hauth, hok, hbody]
    · apply byName_assignment_none
      simp [getGradescopeAssignments, hca, mar_good, hauth, hok, hbody]

/-- C3 witness: a rejected fetch and a 500 response each produce a null
result at concrete inputs. -/
theorem operations_fail_closed_witness :
    (getGradescopeCourses [FetchResult.err] { isAuthenticated := true }).1 = none ∧
    (getGradescopeAssignments [FetchResult.net { status := 500 }]
        { isAuthenticated := true } "123").1 = none :=
  ⟨(operations_fail_closed { isAuthenticated := true } [] "123" "x" { status := 500 }
        rfl rfl rfl).1.1,
    ((operations_fail_closed { isAuthenticated := true } [] "123" "x" { status := 500 }
        rfl rfl rfl).2.1 (Or.inr (by decide))).2.2.1⟩

/-- C7: `getAssignments` tries the instructor-view data block first and
parses the student view exactly when the instructor view yields no
assignments; the student view takes the table rows without header and
footer; a points cell of the form `X / Y` gives grade `X`, max grade
`Y` and status `Submitted`; of the due-date markers the first datetime
is the due date and the second, when present, the late-due date. -/
theorem assignments_parse_fallback (doc : PageDoc) :
    (parseAssignmentsInstructorView doc = none ∨
        parseAssignmentsInstructorView doc = some [] →
      parseAssignmentsFromPage doc = parseAssignmentsStudentView doc) ∧
    (∀ l, parseAssignmentsInstructorView doc = some l → l ≠ [] →
      parseAssignmentsFromPage doc = l) ∧
    (parseAssignmentsStudentView doc =
      ((doc.rows.drop 1).dropLast).filterMap parseStudentRow) ∧
    (∀ (c0 c1 c2 : Cell) (rest : List Cell) (row : Row),
      row.cells = c0 :: c1 :: c2 :: rest →
      jsIncludes (jsTrim c1.text) " / " = true →
      ∃ a, parseStudentRow row = some a ∧
        a.grade = some (parseFloatJs ((jsSplit (jsTrim c1.text) " / ").getD 0 "")) ∧
        a.max_grade = some (parseFloatJs ((jsSplit (jsTrim c1.text) " / ").getD 1 "")) ∧
        a.submissions_status = some "Submitted" ∧
        a.due_date = (match c2.dueDates with
          | dd :: _ => truthy dd
          | [] => none) ∧
        a.late_due_date = (match c2.dueDates with
          | _ :: dd :: _ => truthy dd
          | _ => none)) ∧
    (∀ (st : GsState) (tr : List FetchResult) (r : Response) (cid : String),
      st.assignmentsCache.entries = [] → st.isAuthenticated = true →
      respOk r = true → r.body = Body.page doc →
      (getGradescopeAssignments (FetchResult.net r :: tr) st cid).1 =
        some (parseAssignmentsFromPage doc)) := by
  refine ⟨?_, ?_, rfl, ?_, ?_⟩
  · intro h
    rcases h with h | h <;> simp [parseAssignmentsFromPage, h]
  · intro l hl hne
    cases l with
    | nil => exact absurd rfl hne
    | cons a as => simp [parseAssignmentsFromPage, hl]
  · intro c0 c1 c2 rest row hc hsl
    simp only [parseStudentRow, hc, hsl]
    refine ⟨_, rfl, ?_, ?_, ?_, ?_, ?_⟩ <;> simp
  · intro st tr r cid ha2 hauth hok hbody
    have hfa : st.assignmentsCache.entries.find?
        (fun e => e.1 = ("gradescope_assignments", some cid)) = none := by
      rw [ha2]; rfl
    have hca : cacheGet st.now st.assignmentsCache "gradescope_assignments" (some cid) =
        (none, { st.assignmentsCache with
          missCount := st.assignmentsCache.missCount + 1 }) := by
      simp [cacheGet, hfa]
    simp [getGradescopeAssignments, hca, mar_good, hauth, hok, hbody]

/-- C7 witness: the student-view row `"HW1", "8 / 10", dates` parses
into a submitted assignment with grade 8 out of 10 and the two date
markers as due and late-due dates. -/
theorem assignments_parse_fallback_witness :
    ∃ a, parseStudentRow { cells := [{ text := "HW1" }, { text := "8 / 10" },
        { dueDates := [some "2024-12-01T23:59", some "2024-12-03T23:59"] }] } = some a ∧
      a.grade = some (JsNum.num 8) ∧ a.max_grade = some (JsNum.num 10) ∧
      a.submissions_status = some "Submitted" ∧
      a.due_date = some "2024-12-01T23:59" ∧
      a.late_due_date = some "2024-12-03T23:59" := by
  obtain ⟨a, ha, h1, h2, h3, h4, h5⟩ :=
    (assignments_parse_fallback {}).2.2.2.1 { text := "HW1" } { text := "8 / 10" }
      { dueDates := [some "2024-12-01T23:59", some "2024-12-03T23:59"] } []
      { cells := [{ text := "HW1" }, { text := "8 / 10" },
        { dueDates := [some "2024-12-01T23:59", some "2024-12-03T23:59"] }] }
      rfl (by decide)
  have hs0 : (jsSplit (jsTrim ({ text := "8 / 10" } : Cell).text) " / ").getD 0 "" = "8" := by
    decide
  have hs1 : (jsSplit (jsTrim ({ text := "8 / 10" } : Cell).text) " / ").getD 1 "" = "10" := by
    decide
  refine ⟨a, ha, ?_, ?_, h3, ?_, ?_⟩
  · rw [h1, hs0]
    simp +decide [parseFloatJs, digitsVal]
  · rw [h2, hs1]
    simp +decide [parseFloatJs, digitsVal]
  · rw [h4]; decide
  · rw [h5]; decide

/-- C8: `getCourseByName` matches the name part as a case-insensitive
substring of a course's short or full name, checks every student-group
course before any instructor-group course, returns the first match, and
returns null exactly when no course in either group matches; with a
fresh cached course list the operation returns exactly this lookup. -/
theorem course_by_name_matching (groups : CourseGroups) (nm : String) :
    (findCourseByName groups nm =
      ((groups.student.map Prod.snd) ++ (groups.instructor.map Prod.snd)).find?
        (fun c => courseNameMatches c nm)) ∧
    (findCourseByName groups nm = none ↔
      ∀ c ∈ (groups.student.map Prod.snd) ++ (groups.instructor.map Prod.snd),
        ¬ courseNameMatches c nm = true) ∧
    (∀ (st : GsState) (tr : List FetchResult) (e : Nat),
      st.coursesCache.entries = [(("gradescope_courses", none), ⟨groups, e⟩)] →
      st.now < e →
      (getGradescopeCourseByName tr st nm).1 = findCourseByName groups nm) := by
  have h1 : findCourseByName groups nm =
      ((groups.student.map Prod.snd) ++ (groups.instructor.map Prod.snd)).find?
        (fun c => courseNameMatches c nm) := by
    rw [List.find?_append]
    unfold findCourseByName
    cases (groups.student.map Prod.snd).find? (fun c => courseNameMatches c nm) <;>
      simp [Option.or]
  refine ⟨h1, ?_, ?_⟩
  · rw [h1, List.find?_eq_none]
  · intro st tr e hentries hnow
    have hfind : st.coursesCache.entries.find?
        (fun en => en.1 = ("gradescope_courses", none)) =
        some (("gradescope_courses", none), ⟨groups, e⟩) := by
      rw [hentries]
      simp [List.find?]
    have hcg : cacheGet st.now st.coursesCache "gradescope_courses" none =
        (some groups,
          { st.coursesCache with hitCount := st.coursesCache.hitCount + 1 }) := by
      simp [cacheGet, hfind, hnow]
    simp [getGradescopeCourseByName, getGradescopeCourses, hcg]

/-- A concrete student course used by the C8 witness. -/
def demoCourse : GCourse :=
  { id := "101", name := "CS 101", full_name := "Introduction to Programming" }

/-- Concrete course groups used by the C8 witness. -/
def demoGroups : CourseGroups :=
  { student := [("Course ID: 101", demoCourse)],
    instructor := [("Course ID: 202",
      { id := "202", name := "INTRO 999", full_name := "Faculty Seminar" })] }

/-- C8 witness: with a fresh cached course list, looking up `intro`
hits the student course (case-insensitively, by substring, before the
matching instructor course). -/
theorem course_by_name_matching_witness :
    (getGradescopeCourseByName []
        { coursesCache := { entries := [(("gradescope_courses", none), ⟨demoGroups, 10⟩)] },
          now := 0 } "intro").1 = findCourseByName demoGroups "intro" ∧
    findCourseByName demoGroups "intro" = some demoCourse :=
  ⟨(course_by_name_matching demoGroups "intro").2.2
      { coursesCache := { entries := [(("gradescope_courses", none), ⟨demoGroups, 10⟩)] },
        now := 0 } [] 10 rfl (by decide),
    by decide⟩

end CanvasMCP
